import Mathlib

/-!
Shallow embedding of the training core of `autoencoding_beyond_pixels`
(files `model/gan.py`, `model/aegan.py`), and proofs of the specified
properties of the equilibrium-gated scheduler, the gradient-scaling and
weighted-parameter primitives, the joint-loss graph construction, and the
epoch-level cost reduction.  Numeric quantities (costs, weights, losses)
are modelled as rationals; parameter tensors as identifiers tagged with a
shared/non-shared flag; batches of samples as lists of rows of rationals.

`util.py` (home of `ScaleGradient` and `WeightedParameter`) and `ae.py`
(home of `GaussianNegLogLikelihood`) are not among the sources; where
their behaviour is needed it is modelled from the spec, and the
definitions say so in their doc comments.
-/

/-! ## Equilibrium-gated scheduler -/

/-- Equilibrium-gated update decision, translated from `model/gan.py`
lines 113-124 (`gen_update`, `dis_update`); the identical logic appears at
`model/aegan.py` lines 176-187 as (`dec_update`, `dis_update`).  The
Python initializes both flags to `True` and sets a flag to `False` when
its threshold condition fires, which is the `if c then false else true`
below; the final guard forces both back to `True` when both were cleared.
Returns `(gen_update, dis_update)`. -/
def updateGates (margin : Option ℚ) (equilibrium real_cost fake_cost : ℚ) :
    Bool × Bool :=
  match margin with
  | none => (true, true)
  | some m =>
    let dis_update : Bool :=
      if real_cost < equilibrium - m ∨ fake_cost < equilibrium - m then
        false
      else true
    let gen_update : Bool :=
      if real_cost > equilibrium + m ∨ fake_cost > equilibrium + m then
        false
      else true
    if !(gen_update || dis_update) then (true, true)
    else (gen_update, dis_update)

/-- The gating rule exactly as the claim words it: the discriminator
update is skipped iff a cost falls below `equilibrium - margin`, the
generator/decoder update is skipped iff a cost rises above
`equilibrium + margin`, and when both would be skipped both are forced to
proceed.  Spec-side definition, to be compared with `updateGates`. -/
def gateClaimRule (m equilibrium real_cost fake_cost : ℚ) : Bool × Bool :=
  let dskip : Bool :=
    decide (real_cost < equilibrium - m) ||
      decide (fake_cost < equilibrium - m)
  let gskip : Bool :=
    decide (real_cost > equilibrium + m) ||
      decide (fake_cost > equilibrium + m)
  if dskip && gskip then (true, true) else (!gskip, !dskip)

/-- A physical parameter tensor as the scheduler sees it: an identity for
the underlying storage, and whether this logical instance is a
`dp.parameter.SharedParameter` (a share of another instance's storage). -/
structure PParam where
  physId : Nat
  isShared : Bool
deriving DecidableEq, Repr

/-- Sharing a parameter (`p.share()` in `model/aegan.py` lines 32 and
43-44): the share refers to the same physical storage and is a
`SharedParameter` instance. -/
def PParam.share (p : PParam) : PParam :=
  ⟨p.physId, true⟩

/-- Optimizer-state initialization at scheduler reset, translated from
`model/gan.py` lines 102-104 and `model/aegan.py` lines 164-166:
`learn_rule.init_state(p)` is run for every parameter of the group that is
not a `SharedParameter` instance.  Each allocated state is represented by
the parameter that owns it. -/
def schedulerStates (params : List PParam) : List PParam :=
  params.filter (fun p => !p.isShared)

/-- The parameters actually stepped by
`for param, state in zip(params, states): learn_rule.step(param, state)`
(`model/gan.py` lines 126-130, `model/aegan.py` lines 188-195): `zip`
truncates to the shorter list. -/
def stepParams (params states : List PParam) : List PParam :=
  (params.zip states).map Prod.fst

/-- One minibatch of the four-network scheduler's stepping, translated
from `model/aegan.py` lines 176-195: the encoder/latent-encoder group is
stepped unconditionally, the decoder group iff `dec_update`, the
discriminator group iff `dis_update`.  Returns the list of parameters
stepped this minibatch. -/
def aeganBatchSteps (params_enc params_dec params_dis : List PParam)
    (margin : Option ℚ) (equilibrium real_cost fake_cost : ℚ) :
    List PParam :=
  let gates := updateGates margin equilibrium real_cost fake_cost
  params_enc
    ++ (if gates.1 then params_dec else [])
    ++ (if gates.2 then params_dis else [])

/-- An epoch of the four-network scheduler's stepping (`model/aegan.py`
lines 171-195): per batch, `model.update` produces
`(real_cost, fake_cost, encoder_cost)` and the gating decides the steps
taken.  Returns, per minibatch, the list of parameters stepped. -/
def aeganEpochStepLists {β : Type} (update : β → ℚ × ℚ × ℚ)
    (batches : List β) (params_enc params_dec params_dis : List PParam)
    (margin : Option ℚ) (equilibrium : ℚ) : List (List PParam) :=
  batches.map (fun b =>
    let c := update b
    aeganBatchSteps params_enc params_dec params_dis margin equilibrium
      c.1 c.2.1)

/-- `np.mean` of a list of rationals (sum divided by length; `0` on the
empty list, matching the convention `0 / 0 = 0` of `ℚ`). -/
def npMean (xs : List ℚ) : ℚ :=
  xs.sum / xs.length

/-- Epoch cost of the two-network scheduler, translated from
`model/gan.py` lines 108-134: `batch_costs` collects per-batch
`(real_cost, fake_cost)` pairs from `model.update`, and the return value
is `np.mean` of the first components plus `np.mean` of the second. -/
def ganTrainEpochCost {β : Type} (update : β → ℚ × ℚ)
    (batches : List β) : ℚ :=
  let batch_costs := batches.map update
  npMean (batch_costs.map Prod.fst) + npMean (batch_costs.map Prod.snd)

/-- Epoch cost of the four-network scheduler, translated from
`model/aegan.py` lines 171-199: per-batch triples
`(real_cost, fake_cost, encoder_cost)`, and the return value is the sum of
the three per-component means. -/
def aeganTrainEpochCost {β : Type} (update : β → ℚ × ℚ × ℚ)
    (batches : List β) : ℚ :=
  let batch_costs := batches.map update
  npMean (batch_costs.map (fun c => c.1)) +
    npMean (batch_costs.map (fun c => c.2.1)) +
    npMean (batch_costs.map (fun c => c.2.2))

/-! ## GradientScaler and WeightedParameter primitives -/

/-- The scale bound at construction of a `ScaleGradient` node: a scalar or
a per-element tensor (modelled as a list). -/
inductive GScale where
  | scalar (s : ℚ)
  | tensor (t : List ℚ)

/-- Modelled from the spec: `ScaleGradient` lives in `util.py`, which is
not among the sources.  Per spec §4.1, `forward(x) = x`. -/
def scaleGradientFprop (_scale : GScale) (x : List ℚ) : List ℚ :=
  x

/-- Modelled from the spec: `ScaleGradient` lives in `util.py`, which is
not among the sources.  Per spec §4.1,
`backward(grad_out) = grad_out ⊙ scale`, the scale being fixed at
construction (scalar broadcast or elementwise tensor product). -/
def scaleGradientBprop (scale : GScale) (grad_out : List ℚ) : List ℚ :=
  match scale with
  | .scalar s => grad_out.map (fun g => g * s)
  | .tensor t => List.zipWith (fun g s => g * s) grad_out t

/-- Modelled from the spec (§3 data model): `WeightedParameter` lives in
`util.py`, which is not among the sources.  It wraps a parameter with the
pair `(update_weight, gradient_weight)`, in that constructor order. -/
structure WeightedParameter where
  physId : Nat
  update_weight : ℚ
  gradient_weight : ℚ
deriving DecidableEq, Repr

/-- The two-network model wraps every generator parameter as
`WeightedParameter(p, -1.0, 0.0)` (`model/gan.py` lines 18-19). -/
def ganGeneratorParam (physId : Nat) : WeightedParameter :=
  ⟨physId, -1, 0⟩

/-- The four-network model wraps every decoder parameter as
`WeightedParameter(p, recon_vs_gan_weight, -(1.0 - recon_vs_gan_weight))`
(`model/aegan.py` lines 28-30). -/
def aeganDecoderParam (w : ℚ) (physId : Nat) : WeightedParameter :=
  ⟨physId, w, -(1 - w)⟩

/-- Modelled from the spec (§4.2): the gradient weights of the decoder
tensors' two logical roles — `+w` for the reconstruction use and
`-(1-w)` for the adversarial use on the shared copy, where
`w = recon_vs_gan_weight`.  The sharing mechanics live in `util.py`, which
is not among the sources. -/
def decoderRoleGradWeights (w : ℚ) : ℚ × ℚ :=
  (w, -(1 - w))

/-- Modelled from the spec (§4.2): the gradient accumulated at a physical
parameter before the optimizer step is the sum, over every logical use, of
that use's gradient weight times its raw backward-computed gradient.  Each
use is a pair `(gradient_weight, raw_grad)`. -/
def accumulatedGrad (uses : List (ℚ × ℚ)) : ℚ :=
  (uses.map (fun u => u.1 * u.2)).sum

/-! ## Rebalancing weights for the discriminator batch -/

/-- Whether the two-network model inserts the rebalancing
`ScaleGradient` pair: the guard `if self.real_vs_gen_weight != 0.5:` of
`model/gan.py` lines 30 and 44. -/
def ganRebalanceInserted (real_vs_gen_weight : ℚ) : Bool :=
  decide (real_vs_gen_weight ≠ 1 / 2)

/-- Per-row rebalancing weight of the two-network model (`model/gan.py`
lines 34-36): `real_vs_gen_weight` for the first `batch_size` (real) rows
and `1 - real_vs_gen_weight` for the generated rows.  Applied (as
`dis_weights`) to the discriminator's output. -/
def ganRowWeight (batch_size : Nat) (w : ℚ) (i : Nat) : ℚ :=
  if i < batch_size then w else 1 - w

/-- Elementwise reciprocal of the per-row weights (`dis_weights_inv`,
`model/gan.py` line 40).  Applied to the discriminator's input. -/
def ganRowWeightInv (batch_size : Nat) (w : ℚ) (i : Nat) : ℚ :=
  1 / ganRowWeight batch_size w i

/-- Generated-group size of the four-network model (`model/aegan.py`
lines 78-82): `gen_size = batch_size`, doubled when `sample_z` appends a
second block of prior-sampled latent codes. -/
def aeganGenSize (sample_z : Bool) (batch_size : Nat) : Nat :=
  if sample_z then batch_size + batch_size else batch_size

/-- Per-generated-row rebalancing weight of the four-network model
(`model/aegan.py` line 89):
`gen_weight = (1 - real_vs_gen_weight) * batch_size / gen_size`. -/
def aeganGenWeight (w : ℚ) (batch_size gen_size : Nat) : ℚ :=
  (1 - w) * batch_size / gen_size

/-- Per-row rebalancing weight of the four-network model (`model/aegan.py`
lines 88-92), built unconditionally (no `!= 0.5` guard in `AEGAN.setup`):
`real_vs_gen_weight` for the first `batch_size` rows, `gen_weight` for the
`gen_size` generated rows. -/
def aeganRowWeight (w : ℚ) (batch_size gen_size : Nat) (i : Nat) : ℚ :=
  if i < batch_size then w else aeganGenWeight w batch_size gen_size

/-! ## Discriminator layers and the reconstruction loss selection -/

/-- One row (one sample's features), flattened. -/
abbrev Row := List ℚ

/-- One discriminator layer: a rowwise feature map together with the
parameters it owns. -/
structure DLayer where
  apply : Row → Row
  layerParams : List PParam

/-- Sequential application of a list of layers to one row. -/
def applyLayers (layers : List DLayer) (r : Row) : Row :=
  layers.foldl (fun acc l => l.apply acc) r

/-- The parameters of a stack of layers, in layer order. -/
def netParams (layers : List DLayer) : List PParam :=
  (layers.map DLayer.layerParams).flatten

/-- The discriminator's first `recon_depth` layers (`recon_layers`,
`model/aegan.py` line 35). -/
def aeganReconLayers (disc : List DLayer) (recon_depth : Nat) :
    List DLayer :=
  disc.take recon_depth

/-- The main discriminator's collection after `AEGAN.__init__` reassembles
it (`model/aegan.py` lines 38-39 and 45): the first `recon_depth` layers
followed by the remaining layers. -/
def aeganDiscCollectionFinal (disc : List DLayer) (recon_depth : Nat) :
    List DLayer :=
  aeganReconLayers disc recon_depth ++ disc.drop recon_depth

/-- The parameters of `discriminator_recon` (`model/aegan.py` lines
42-44): shares of the parameters of the discriminator's first
`recon_depth` layers. -/
def aeganDiscReconParams (disc : List DLayer) (recon_depth : Nat) :
    List PParam :=
  (netParams (aeganReconLayers disc recon_depth)).map PParam.share

/-- The reconstruction-loss construction of `AEGAN.setup`
(`model/aegan.py` lines 66-74): with `recon_depth > 0`, concatenate
`x_tilde` and the source batch, run the discriminator-depth-`recon_depth`
feature stack rowwise, slice at `batch_size`, and take the reconstruction
error between the slices; with `recon_depth = 0`, the reconstruction error
directly between `x_tilde` and the source.  `recon_error` abstracts
`GaussianNegLogLikelihood` (defined in `ae.py`, not among the sources). -/
def aeganReconLoss (recon_error : List Row → List Row → ℚ)
    (disc : List DLayer) (recon_depth batch_size : Nat)
    (x_tilde x_src : List Row) : ℚ :=
  if 0 < recon_depth then
    let x := x_tilde ++ x_src
    let d := x.map (applyLayers (aeganReconLayers disc recon_depth))
    let d_x_tilde := d.take batch_size
    let d_x := d.drop batch_size
    recon_error d_x_tilde d_x
  else
    recon_error x_tilde x_src

/-- The claim's manual two-step evaluation, outside the joint graph:
extract depth-`recon_depth` features of `x_tilde` and of `x_src`
separately, then take the reconstruction error between them.  Spec-side
definition, to be compared with `aeganReconLoss`. -/
def manualReconTwoStep (recon_error : List Row → List Row → ℚ)
    (disc : List DLayer) (recon_depth : Nat) (x_tilde x_src : List Row) :
    ℚ :=
  recon_error (x_tilde.map (applyLayers (aeganReconLayers disc recon_depth)))
    (x_src.map (applyLayers (aeganReconLayers disc recon_depth)))

/-! ## Concrete fixtures used by witness theorems -/

/-- A one-layer discriminator used as a concrete witness input. -/
def witDisc : List DLayer :=
  [⟨fun r => r.map (fun q => q + 1), [⟨5, false⟩]⟩]

/-- A concrete reconstruction error used as a witness input. -/
def witReconError (a b : List Row) : ℚ :=
  (a.map List.sum).sum - (b.map List.sum).sum

/-! ## Helper lemmas -/

lemma ganCostSumSplit (l : List (ℚ × ℚ)) :
    (l.map (fun c => c.1 + c.2)).sum =
      (l.map Prod.fst).sum + (l.map Prod.snd).sum := by
  induction l with
  | nil => simp
  | cons a t ih => simp only [List.map_cons, List.sum_cons, ih]; ring

lemma aeganCostSumSplit (l : List (ℚ × ℚ × ℚ)) :
    (l.map (fun c => c.1 + c.2.1 + c.2.2)).sum =
      (l.map (fun c => c.1)).sum + (l.map (fun c => c.2.1)).sum +
        (l.map (fun c => c.2.2)).sum := by
  induction l with
  | nil => simp
  | cons a t ih => simp only [List.map_cons, List.sum_cons, ih]; ring

lemma schedulerStatesOfShares (ps : List PParam) :
    schedulerStates (ps.map PParam.share) = [] := by
  apply List.filter_eq_nil_iff.mpr
  intro a ha
  simp only [List.mem_map] at ha
  obtain ⟨b, -, rfl⟩ := ha
  simp [PParam.share]

lemma schedulerStatesOfCanonical {ps : List PParam}
    (h : ∀ p ∈ ps, p.isShared = false) : schedulerStates ps = ps := by
  apply List.filter_eq_self.mpr
  intro a ha
  simp [h a ha]

lemma stepParamsSelf (g : List PParam) : stepParams g g = g := by
  simp only [stepParams]
  exact List.map_fst_zip g g (le_refl _)

/-! ## Claim C1: the equilibrium gating decision -/

/-- Claim C1 counterexample: with margin 0.4 and equilibrium 0.68, at
`real_cost = 0.9, fake_cost = 0.9` neither cost exceeds
`equilibrium + margin = 1.08`, so the code leaves both gates on: the
generator/decoder update is NOT skipped, contradicting the claim that this
input "skips only the generator/decoder update". -/
theorem claim1_gating_counterexample :
    ¬ (updateGates (some (2/5)) (17/25) (9/10) (9/10) = (false, true)) ∧
      updateGates (some (2/5)) (17/25) (9/10) (9/10) = (true, true) := by
  norm_num [updateGates]

/-- Claim C1 (amended): with no margin both updates always proceed; with a
margin the decision equals the skip/skip/forced-both rule of the claim;
and at margin 0.4, equilibrium 0.68: `(0.2, 0.9)` skips only the
discriminator update, `(0.9, 0.9)` proceeds with both updates (no
threshold triggered), and `(0.2, 1.0)` triggers only the lower threshold,
skipping the discriminator update while the generator/decoder update
proceeds.  The pair is `(gen_update, dis_update)`. -/
theorem claim1_gating_amended :
    (∀ equilibrium real_cost fake_cost : ℚ,
      updateGates none equilibrium real_cost fake_cost = (true, true)) ∧
    (∀ m equilibrium real_cost fake_cost : ℚ,
      updateGates (some m) equilibrium real_cost fake_cost =
        gateClaimRule m equilibrium real_cost fake_cost) ∧
    updateGates (some (2/5)) (17/25) (1/5) (9/10) = (true, false) ∧
    updateGates (some (2/5)) (17/25) (9/10) (9/10) = (true, true) ∧
    updateGates (some (2/5)) (17/25) (1/5) 1 = (true, false) := by
  refine ⟨fun _ _ _ => rfl, ?_, by norm_num [updateGates],
    by norm_num [updateGates], by norm_num [updateGates]⟩
  intro m e rc fc
  simp only [updateGates, gateClaimRule]
  by_cases h1 : rc < e - m <;> by_cases h2 : fc < e - m <;>
    by_cases h3 : rc > e + m <;> by_cases h4 : fc > e + m <;>
      simp [h1, h2, h3, h4]

/-! ## Claim C2: GradientScaler forward identity, backward scaling -/

/-- Claim C2: the forward pass returns its input unchanged; the backward
pass returns the upstream gradient elementwise-multiplied by the scale
fixed at construction (scalar broadcast or per-element tensor); a zero
scale blocks the gradient entirely; a negated scale reverses every
component's sign; and downstream forward values are identical to the
unscaled case. -/
theorem claim2_scale_gradient :
    (∀ (s : GScale) (x : List ℚ), scaleGradientFprop s x = x) ∧
    (∀ (s : ℚ) (g : List ℚ),
      scaleGradientBprop (GScale.scalar s) g = g.map (fun gi => gi * s)) ∧
    (∀ (t g : List ℚ),
      scaleGradientBprop (GScale.tensor t) g =
        List.zipWith (fun gi si => gi * si) g t) ∧
    (∀ g : List ℚ,
      scaleGradientBprop (GScale.scalar 0) g =
        List.replicate g.length 0) ∧
    (∀ (s : ℚ) (g : List ℚ),
      scaleGradientBprop (GScale.scalar (-s)) g =
        (scaleGradientBprop (GScale.scalar s) g).map (fun gi => -gi)) ∧
    (∀ (f : List ℚ → ℚ) (s : GScale) (x : List ℚ),
      f (scaleGradientFprop s x) = f x) := by
  refine ⟨fun _ _ => rfl, fun _ _ => rfl, fun _ _ => rfl, ?_, ?_,
    fun _ _ _ => rfl⟩
  · intro g
    induction g with
    | nil => rfl
    | cons a t ih => simp_all [scaleGradientBprop, List.replicate]
  · intro s g
    induction g with
    | nil => rfl
    | cons a t ih => simp_all [scaleGradientBprop, mul_neg]

/-! ## Claim C3: WeightedParameter gradient accumulation -/

/-- Claim C3: for a physical parameter shared between two logical uses
with gradient weights `w1, w2` and raw per-use gradients `g1, g2`, the
accumulated gradient before the optimizer step is `w1*g1 + w2*g2`; with
the four-network decoder's role weights `(+w, -(1-w))`,
`w = recon_vs_gan_weight`, this is `w*g1 - (1-w)*g2`, and the decoder
parameters are indeed wrapped with update weight `w` and gradient weight
`-(1-w)`. -/
theorem claim3_weighted_param_accumulation :
    (∀ w1 w2 g1 g2 : ℚ,
      accumulatedGrad [(w1, g1), (w2, g2)] = w1 * g1 + w2 * g2) ∧
    (∀ w g1 g2 : ℚ,
      accumulatedGrad
          [((decoderRoleGradWeights w).1, g1),
            ((decoderRoleGradWeights w).2, g2)] =
        w * g1 - (1 - w) * g2) ∧
    (∀ (w : ℚ) (pid : Nat),
      (aeganDecoderParam w pid).update_weight = w ∧
        (aeganDecoderParam w pid).gradient_weight = -(1 - w)) := by
  refine ⟨fun w1 w2 g1 g2 => ?_, fun w g1 g2 => ?_, fun w pid => ⟨rfl, rfl⟩⟩
  · simp [accumulatedGrad]
  · simp [accumulatedGrad, decoderRoleGradWeights]; ring

/-! ## Claim C8: epoch-level cost reduction -/

/-- Claim C8: both schedulers reduce the collected per-batch cost tuples
to per-component epoch means and return the sum of those means — which
also equals the epoch mean of the per-batch summed costs. -/
theorem claim8_epoch_cost_reduction {β : Type} (update2 : β → ℚ × ℚ)
    (update3 : β → ℚ × ℚ × ℚ) (batches : List β) :
    ganTrainEpochCost update2 batches =
      ((batches.map update2).map Prod.fst).sum / batches.length +
        ((batches.map update2).map Prod.snd).sum / batches.length ∧
    aeganTrainEpochCost update3 batches =
      ((batches.map update3).map (fun c => c.1)).sum / batches.length +
        ((batches.map update3).map (fun c => c.2.1)).sum / batches.length +
        ((batches.map update3).map (fun c => c.2.2)).sum / batches.length ∧
    ganTrainEpochCost update2 batches =
      npMean ((batches.map update2).map (fun c => c.1 + c.2)) ∧
    aeganTrainEpochCost update3 batches =
      npMean ((batches.map update3).map (fun c => c.1 + c.2.1 + c.2.2)) := by
  refine ⟨?_, ?_, ?_, ?_⟩
  · simp [ganTrainEpochCost, npMean, List.length_map]
  · simp [aeganTrainEpochCost, npMean, List.length_map]
  · simp only [ganTrainEpochCost, npMean, ganCostSumSplit, List.length_map,
      add_div]
  · simp only [aeganTrainEpochCost, npMean, aeganCostSumSplit,
      List.length_map, add_div]

/-! ## Claim C9: the generator's literal weight pair -/

/-- Claim C9: every two-network generator parameter is wrapped as
`WeightedParameter(p, -1.0, 0.0)`, so under the `(update_weight,
gradient_weight)` ordering its only registered logical use has gradient
weight zero, whereas the four-network decoder's two roles both carry
nonzero gradient weights whenever `0 < recon_vs_gan_weight < 1`. -/
theorem claim9_generator_gradient_weight_zero :
    (∀ pid : Nat,
      (ganGeneratorParam pid).update_weight = -1 ∧
        (ganGeneratorParam pid).gradient_weight = 0) ∧
    (∀ w : ℚ, 0 < w → w < 1 →
      (decoderRoleGradWeights w).1 ≠ 0 ∧
        (decoderRoleGradWeights w).2 ≠ 0) ∧
    (∀ w : ℚ, w < 1 → (aeganDecoderParam w 0).gradient_weight ≠ 0) := by
  refine ⟨fun pid => ⟨rfl, rfl⟩, fun w h0 h1 => ⟨ne_of_gt h0, ?_⟩,
    fun w h1 => ?_⟩
  · show -(1 - w) ≠ 0
    exact neg_ne_zero.mpr (sub_ne_zero.mpr (Ne.symm (ne_of_lt h1)))
  · show -(1 - w) ≠ 0
    exact neg_ne_zero.mpr (sub_ne_zero.mpr (Ne.symm (ne_of_lt h1)))

/-- Claim C9 witness: the nonzero-role-weights part instantiated at the
repository default `recon_vs_gan_weight = 1e-2`. -/
theorem claim9_generator_gradient_weight_zero_witness :
    (0 : ℚ) < 1 / 100 ∧ (1 : ℚ) / 100 < 1 ∧
      ((decoderRoleGradWeights (1 / 100)).1 ≠ 0 ∧
        (decoderRoleGradWeights (1 / 100)).2 ≠ 0) :=
  ⟨by norm_num, by norm_num,
    claim9_generator_gradient_weight_zero.2.1 (1 / 100) (by norm_num)
      (by norm_num)⟩

/-! ## Claim C4: two-network rebalancing pair -/

/-- Claim C4: the rebalancing pair is inserted iff
`real_vs_gen_weight ≠ 0.5`; when inserted, the per-row weight is
`real_vs_gen_weight` for the first `batch_size` (real) rows and
`1 - real_vs_gen_weight` for the generated rows; the reciprocal is applied
on the discriminator's input and the weights on its output, and for every
row the product of the two applied scales is `1`. -/
theorem claim4_gan_rebalancing (batch_size : Nat) (w : ℚ)
    (hw0 : w ≠ 0) (hw1 : w ≠ 1) :
    (ganRebalanceInserted w = true ↔ w ≠ 1 / 2) ∧
    (∀ i, i < batch_size → ganRowWeight batch_size w i = w) ∧
    (∀ i, batch_size ≤ i → ganRowWeight batch_size w i = 1 - w) ∧
    (∀ i, ganRowWeightInv batch_size w i * ganRowWeight batch_size w i
      = 1) := by
  refine ⟨by simp [ganRebalanceInserted], fun i hi => ?_, fun i hi => ?_,
    fun i => ?_⟩
  · simp [ganRowWeight, hi]
  · simp [ganRowWeight, Nat.not_lt.mpr hi]
  · unfold ganRowWeightInv ganRowWeight
    rcases Nat.lt_or_ge i batch_size with h | h
    · rw [if_pos h]
      exact one_div_mul_cancel hw0
    · rw [if_neg (Nat.not_lt.mpr h)]
      exact one_div_mul_cancel (sub_ne_zero.mpr (Ne.symm hw1))

/-- Claim C4 witness: instantiated at `batch_size = 2`,
`real_vs_gen_weight = 2/3` (so the pair is inserted), with a real row
`i = 1` and a generated row `i = 3`. -/
theorem claim4_gan_rebalancing_witness :
    (2 : ℚ) / 3 ≠ 0 ∧ (2 : ℚ) / 3 ≠ 1 ∧
      (ganRebalanceInserted (2 / 3) = true ↔ (2 : ℚ) / 3 ≠ 1 / 2) ∧
      ganRowWeight 2 (2 / 3) 1 = 2 / 3 ∧
      ganRowWeight 2 (2 / 3) 3 = 1 - 2 / 3 ∧
      ganRowWeightInv 2 (2 / 3) 3 * ganRowWeight 2 (2 / 3) 3 = 1 := by
  have h := claim4_gan_rebalancing 2 (2 / 3) (by norm_num) (by norm_num)
  exact ⟨by norm_num, by norm_num, h.1, h.2.1 1 (by norm_num),
    h.2.2.1 3 (by norm_num), h.2.2.2 3⟩

/-! ## Claim C10: four-network rebalancing is unconditional -/

/-- Claim C10: the four-network setup builds the rebalancing weights for
every `real_vs_gen_weight` (`1/2` included, there is no `≠ 0.5` guard):
weight `real_vs_gen_weight` for each of the `batch_size` real rows and
`(1 - real_vs_gen_weight) * batch_size / gen_size` for each generated row,
where `gen_size` is `batch_size`, doubled by `sample_z`; hence the
generated rows' weights always sum to
`(1 - real_vs_gen_weight) * batch_size`. -/
theorem claim10_aegan_rebalancing (batch_size : Nat) (w : ℚ)
    (sample_z : Bool) (hbs : 0 < batch_size) :
    (∀ i, i < batch_size →
      aeganRowWeight w batch_size (aeganGenSize sample_z batch_size) i
        = w) ∧
    (∀ i, batch_size ≤ i →
      aeganRowWeight w batch_size (aeganGenSize sample_z batch_size) i =
        (1 - w) * batch_size / (aeganGenSize sample_z batch_size)) ∧
    (aeganGenSize true batch_size = 2 * batch_size ∧
      aeganGenSize false batch_size = batch_size) ∧
    ((List.range (aeganGenSize sample_z batch_size)).map
        (fun j => aeganRowWeight w batch_size
          (aeganGenSize sample_z batch_size) (batch_size + j))).sum =
      (1 - w) * batch_size := by
  have hgs : 0 < aeganGenSize sample_z batch_size := by
    cases sample_z <;> simp [aeganGenSize] <;> omega
  refine ⟨fun i hi => ?_, fun i hi => ?_,
    ⟨by simp [aeganGenSize, two_mul], by simp [aeganGenSize]⟩, ?_⟩
  · simp [aeganRowWeight, hi]
  · simp [aeganRowWeight, Nat.not_lt.mpr hi, aeganGenWeight]
  · have hconst : ∀ j ∈ List.range (aeganGenSize sample_z batch_size),
        aeganRowWeight w batch_size (aeganGenSize sample_z batch_size)
            (batch_size + j) =
          aeganGenWeight w batch_size (aeganGenSize sample_z batch_size) :=
      fun j _ => by
        simp [aeganRowWeight, Nat.not_lt.mpr (Nat.le_add_right _ _)]
    rw [List.map_congr_left hconst, List.map_const', List.sum_replicate,
      List.length_range, nsmul_eq_mul, aeganGenWeight]
    have hne : ((aeganGenSize sample_z batch_size : ℕ) : ℚ) ≠ 0 :=
      Nat.cast_ne_zero.mpr (Nat.pos_iff_ne_zero.mp hgs)
    field_simp

/-- Claim C10 witness: instantiated at `batch_size = 1`,
`real_vs_gen_weight = 1/2` (the value the two-network model would guard
out) and `sample_z = true`. -/
theorem claim10_aegan_rebalancing_witness :
    0 < 1 ∧
      aeganRowWeight (1 / 2) 1 (aeganGenSize true 1) 0 = 1 / 2 ∧
      ((List.range (aeganGenSize true 1)).map
          (fun j => aeganRowWeight (1 / 2) 1 (aeganGenSize true 1)
            (1 + j))).sum = (1 - 1 / 2) * ((1 : ℕ) : ℚ) := by
  have h := claim10_aegan_rebalancing 1 (1 / 2) true (by norm_num)
  exact ⟨by norm_num, h.1 0 (by norm_num), h.2.2.2⟩

/-! ## Claim C5: reconstruction-loss selection -/

/-- Claim C5: with `recon_depth = 0` the reconstruction loss is taken
directly between the decoder output and the source; with
`recon_depth = d > 0` it is taken between the depth-`d` feature
activations of each, computed by the discriminator prefix stack — and this
equals the manual two-step evaluation (feature extraction, then loss).
The prefix sub-network is the discriminator's first `d` layers, its
parameters are shares of (the same physical tensors as) those layers'
parameters, and reassembling `recon_layers ++ dis_layers` restores the
main discriminator's full stack. -/
theorem claim5_recon_loss_selection
    (recon_error : List Row → List Row → ℚ) (disc : List DLayer)
    (recon_depth batch_size : Nat) (x_tilde x_src : List Row)
    (hd : 0 < recon_depth) (hlen : x_tilde.length = batch_size) :
    aeganReconLoss recon_error disc 0 batch_size x_tilde x_src =
      recon_error x_tilde x_src ∧
    aeganReconLoss recon_error disc recon_depth batch_size x_tilde x_src =
      manualReconTwoStep recon_error disc recon_depth x_tilde x_src ∧
    aeganDiscCollectionFinal disc recon_depth = disc ∧
    aeganReconLayers disc recon_depth = disc.take recon_depth ∧
    (aeganDiscReconParams disc recon_depth).map PParam.physId =
      (netParams (aeganReconLayers disc recon_depth)).map PParam.physId
    := by
  refine ⟨rfl, ?_, ?_, rfl, ?_⟩
  · simp only [aeganReconLoss, manualReconTwoStep, if_pos hd,
      List.map_append]
    rw [List.take_left' (by simp [hlen]), List.drop_left' (by simp [hlen])]
  · simp [aeganDiscCollectionFinal, aeganReconLayers]
  · simp [aeganDiscReconParams, List.map_map, Function.comp, PParam.share]

/-- Claim C5 witness: a one-layer discriminator, `recon_depth = 1`,
`batch_size = 1`, concrete one-row batches. -/
theorem claim5_recon_loss_selection_witness :
    0 < 1 ∧ ([[(0 : ℚ)]] : List Row).length = 1 ∧
      aeganReconLoss witReconError witDisc 1 1 [[(0 : ℚ)]] [[(1 : ℚ)]] =
        manualReconTwoStep witReconError witDisc 1 [[(0 : ℚ)]]
          [[(1 : ℚ)]] :=
  ⟨Nat.one_pos, rfl,
    (claim5_recon_loss_selection witReconError witDisc 1 1 [[(0 : ℚ)]]
      [[(1 : ℚ)]] Nat.one_pos rfl).2.1⟩

/-! ## Claim C6: the encoder group is always stepped -/

/-- Claim C6: for every minibatch of every epoch, and for any costs,
margin and equilibrium, every parameter of the encoder/latent-encoder
group appears among the parameters stepped that minibatch — the
equilibrium gating never suppresses the encoder group. -/
theorem claim6_encoder_always_stepped {β : Type} (update : β → ℚ × ℚ × ℚ)
    (batches : List β) (params_enc params_dec params_dis : List PParam)
    (margin : Option ℚ) (equilibrium : ℚ) (p : PParam)
    (hp : p ∈ params_enc) :
    ∀ steps ∈ aeganEpochStepLists update batches params_enc params_dec
        params_dis margin equilibrium, p ∈ steps := by
  intro steps hs
  simp only [aeganEpochStepLists, List.mem_map] at hs
  obtain ⟨b, -, rfl⟩ := hs
  exact List.mem_append_left _ (List.mem_append_left _ hp)

/-- Claim C6 witness: a one-parameter encoder group, one batch, margin
0.4, equilibrium 0.68 and costs `(1, 1, 1)`. -/
theorem claim6_encoder_always_stepped_witness :
    (⟨0, false⟩ : PParam) ∈ ([⟨0, false⟩] : List PParam) ∧
      ∀ steps ∈ aeganEpochStepLists (fun _ : Unit => ((1 : ℚ), 1, 1)) [()]
          [⟨0, false⟩] [] [] (some (2 / 5)) (17 / 25),
        (⟨0, false⟩ : PParam) ∈ steps :=
  ⟨List.mem_singleton.mpr rfl,
    claim6_encoder_always_stepped _ _ _ _ _ _ _ _
      (List.mem_singleton.mpr rfl)⟩

/-! ## Claim C7: optimizer state per physical tensor -/

/-- Claim C7: scheduler reset allocates optimizer state only for the
non-shared parameters of each group; shared logical copies (the negated
decoder copy, the reconstruction discriminator stack) allocate none; when
the groups' canonical parameters are non-shared and physically distinct,
every group's state list covers exactly its parameters, and across the
epoch's step loops every physical tensor is stepped exactly once, never
once per logical use. -/
theorem claim7_shared_param_optimizer_state
    (encP lencP decP disP : List PParam)
    (hNoShare : ∀ p ∈ encP ++ lencP ++ decP ++ disP, p.isShared = false)
    (hNodup : ((encP ++ lencP ++ decP ++ disP).map PParam.physId).Nodup) :
    schedulerStates (decP.map PParam.share) = [] ∧
    schedulerStates (disP.map PParam.share) = [] ∧
    schedulerStates (encP ++ lencP) = encP ++ lencP ∧
    schedulerStates decP = decP ∧
    schedulerStates disP = disP ∧
    (∀ p ∈ encP ++ lencP ++ decP ++ disP,
      ((stepParams (encP ++ lencP) (schedulerStates (encP ++ lencP)) ++
            stepParams decP (schedulerStates decP) ++
            stepParams disP (schedulerStates disP)).map
          PParam.physId).count p.physId = 1) := by
  have h1 : ∀ p ∈ encP ++ lencP, p.isShared = false := by
    intro p hp
    refine hNoShare p ?_
    simp only [List.mem_append] at hp ⊢
    tauto
  have h2 : ∀ p ∈ decP, p.isShared = false := by
    intro p hp
    refine hNoShare p ?_
    simp only [List.mem_append]
    tauto
  have h3 : ∀ p ∈ disP, p.isShared = false := by
    intro p hp
    refine hNoShare p ?_
    simp only [List.mem_append]
    tauto
  refine ⟨schedulerStatesOfShares decP, schedulerStatesOfShares disP,
    schedulerStatesOfCanonical h1, schedulerStatesOfCanonical h2,
    schedulerStatesOfCanonical h3, fun p hp => ?_⟩
  rw [schedulerStatesOfCanonical h1, schedulerStatesOfCanonical h2,
    schedulerStatesOfCanonical h3, stepParamsSelf, stepParamsSelf,
    stepParamsSelf]
  have hassoc : (encP ++ lencP) ++ decP ++ disP =
      encP ++ lencP ++ decP ++ disP := by
    simp [List.append_assoc]
  rw [hassoc]
  exact List.count_eq_one_of_mem hNodup (List.mem_map_of_mem _ hp)

/-- Claim C7 witness: four singleton groups over four distinct physical
tensors. -/
theorem claim7_shared_param_optimizer_state_witness :
    (∀ p ∈ ([⟨0, false⟩] ++ [⟨1, false⟩] ++ [⟨2, false⟩] ++ [⟨3, false⟩] :
        List PParam), p.isShared = false) ∧
      ((([⟨0, false⟩] ++ [⟨1, false⟩] ++ [⟨2, false⟩] ++ [⟨3, false⟩] :
          List PParam)).map PParam.physId).Nodup ∧
      schedulerStates (([⟨2, false⟩] : List PParam).map PParam.share)
        = [] :=
  ⟨by decide, by decide,
    (claim7_shared_param_optimizer_state [⟨0, false⟩] [⟨1, false⟩]
      [⟨2, false⟩] [⟨3, false⟩] (by decide) (by decide)).1⟩
